import Mathlib

/-!
Verification development for the NFS-e extraction service.

The Lean definitions below are a shallow embedding of the Python source:
`app/services/openai_service.py`, `app/main.py` and `app/models/schemas.py`.
Pure JSON manipulation becomes functions on an inductive JSON value type,
the stateful extraction pipeline becomes explicit state passing over a
cache value, and the concurrency control becomes small transition systems.
-/

/-- JSON values, as produced by `json.loads` / manipulated as Python
dicts and lists.  Dicts are insertion-ordered association lists (Python
3.7+ semantics); numbers are modelled as rationals (the payloads under
study only carry them around, no float arithmetic is performed). -/
inductive Json where
  | null : Json
  | bool (b : Bool) : Json
  | num (q : Rat) : Json
  | str (s : String) : Json
  | arr (xs : List Json) : Json
  | obj (kvs : List (String × Json)) : Json

/-- Python `d[k]` lookup on an insertion-ordered dict (association list). -/
def lookupA {α : Type} : List (String × α) → String → Option α
  | [], _ => none
  | (k', v) :: rest, k => if k' = k then some v else lookupA rest k

/-- Python `d[k] = v`: overwrite in place if the key exists (keeping its
position), otherwise append at the end. -/
def setA {α : Type} : List (String × α) → String → α → List (String × α)
  | [], k, v => [(k, v)]
  | (k', v') :: rest, k, v =>
      if k' = k then (k, v) :: rest else (k', v') :: setA rest k v

/-- Python `k in d`. -/
def hasKeyA {α : Type} (l : List (String × α)) (k : String) : Bool :=
  (lookupA l k).isSome

/-- `schema.get("type") == "object"` from `add_additional_properties_false`. -/
def typeIsObject (kvs : List (String × Json)) : Bool :=
  match lookupA kvs "type" with
  | some (.str s) => s = "object"
  | _ => false

/-- `list(schema["properties"].keys())`: the declared property names of a
schema node (empty when no `properties` dict is present). -/
def propKeys (kvs : List (String × Json)) : List String :=
  match lookupA kvs "properties" with
  | some (.obj ps) => ps.map Prod.fst
  | _ => []

mutual
/-- `add_additional_properties_false` from `openai_service.py`: recursively
adds `additionalProperties: false` to every object-typed node and makes all
declared fields required, as OpenAI strict mode demands.  The Python
function first overwrites the two keys on an object node and then recurses
over all entries in place; since recursion leaves the freshly written
boolean and list-of-strings values unchanged, this is equivalently modelled
as recursing over the original entries and then writing the two keys. -/
def add_additional_properties_false : Json → Json
  | .obj kvs =>
      let recursed := aapfList kvs
      if typeIsObject kvs then
        let k1 := setA recursed "additionalProperties" (.bool false)
        if hasKeyA kvs "properties" then
          .obj (setA k1 "required" (.arr ((propKeys kvs).map .str)))
        else
          .obj k1
      else
        .obj recursed
  | .arr xs => .arr (aapfArr xs)
  | j => j

/-- The `for key, value in schema.items()` recursion over dict entries. -/
def aapfList : List (String × Json) → List (String × Json)
  | [] => []
  | (k, v) :: rest => (k, add_additional_properties_false v) :: aapfList rest

/-- The `for item in schema` recursion over list elements. -/
def aapfArr : List Json → List Json
  | [] => []
  | x :: rest => add_additional_properties_false x :: aapfArr rest
end

/-! ## Structural checks on compiled schemas -/

/-- Compares a JSON array of strings with a list of property names,
element by element. -/
def strNamesEq : List Json → List String → Bool
  | [], [] => true
  | .str s :: xs, n :: ns => s = n && strNamesEq xs ns
  | _, _ => false

mutual
/-- Checks, recursively over a whole schema, that every object-typed node
carries `additionalProperties: false` and a `required` list exactly equal
to its declared property names. -/
def strictAll : Json → Bool
  | .obj kvs => strictNode kvs && strictAllList kvs
  | .arr xs => strictAllArr xs
  | _ => true

/-- The per-node strictness condition: trivial on non-object-typed nodes. -/
def strictNode (kvs : List (String × Json)) : Bool :=
  if typeIsObject kvs then
    (match lookupA kvs "additionalProperties" with
     | some (.bool false) => true
     | _ => false) &&
    (match lookupA kvs "required" with
     | some (.arr names) => strNamesEq names (propKeys kvs)
     | _ => false)
  else true

def strictAllList : List (String × Json) → Bool
  | [] => true
  | (_, v) :: rest => strictAll v && strictAllList rest

def strictAllArr : List Json → Bool
  | [] => true
  | x :: rest => strictAll x && strictAllArr rest
end

/-! ## Frame: what the schema compiler leaves untouched -/

mutual
/-- Erases exactly the two keys that `add_additional_properties_false` may
write (`additionalProperties` and `required`) from every dict node of a
JSON value, leaving everything else in place. -/
def eraseAdded : Json → Json
  | .obj kvs => .obj (eraseAddedList kvs)
  | .arr xs => .arr (eraseAddedArr xs)
  | j => j

def eraseAddedList : List (String × Json) → List (String × Json)
  | [] => []
  | (k, v) :: rest =>
      if k = "additionalProperties" ∨ k = "required" then eraseAddedList rest
      else (k, eraseAdded v) :: eraseAddedList rest

def eraseAddedArr : List Json → List Json
  | [] => []
  | x :: rest => eraseAdded x :: eraseAddedArr rest
end

/-- The keys of a JSON dict node (empty for non-dict values). -/
def jsonKeys : Json → List String
  | .obj kvs => kvs.map Prod.fst
  | _ => []

/-! ## The declared record shape

`NFSeData.model_json_schema()` as generated by pydantic v2 from the field
declarations in `app/models/schemas.py`: each `Optional[T] = None` field
becomes `{"anyOf": [{"type": t}, {"type": "null"}], "default": null, ...}`,
fields declared with a `description` carry it, `itens_servico` is an array
of `$ref`s to the nested `NFSeItem` definition, and only `NFSeItem` (whose
`descricao` has no default) gets a pre-existing `required` list. -/

/-- Schema of an `Optional[T] = None` pydantic field. -/
def optField (ty title : String) : Json :=
  .obj [("anyOf", .arr [.obj [("type", .str ty)], .obj [("type", .str "null")]]),
        ("default", .null), ("title", .str title)]

/-- Schema of an `Optional[T] = Field(None, description=...)` pydantic field. -/
def optFieldDesc (ty title desc : String) : Json :=
  .obj [("anyOf", .arr [.obj [("type", .str ty)], .obj [("type", .str "null")]]),
        ("default", .null), ("description", .str desc), ("title", .str title)]

/-- `NFSeItem.model_json_schema()` (as embedded under `$defs`). -/
def nfseItemSchema : Json :=
  .obj [("properties", .obj [
          ("descricao", .obj [("title", .str "Descricao"), ("type", .str "string")]),
          ("quantidade", optField "number" "Quantidade"),
          ("valor_unitario", optField "number" "Valor Unitario"),
          ("valor_total", optField "number" "Valor Total")]),
        ("required", .arr [.str "descricao"]),
        ("title", .str "NFSeItem"),
        ("type", .str "object")]

/-- `NFSeData.model_json_schema()`. -/
def nfseDataJsonSchema : Json :=
  .obj [("$defs", .obj [("NFSeItem", nfseItemSchema)]),
        ("properties", .obj [
          ("numero_nota", optFieldDesc "string" "Numero Nota" "Número da Nota Fiscal"),
          ("data_emissao", optFieldDesc "string" "Data Emissao" "Data de emissão da nota"),
          ("codigo_verificacao", optFieldDesc "string" "Codigo Verificacao"
             "Código de verificação de autenticidade"),
          ("prestador_cnpj", optField "string" "Prestador Cnpj"),
          ("prestador_razao_social", optField "string" "Prestador Razao Social"),
          ("prestador_inscricao_municipal", optField "string" "Prestador Inscricao Municipal"),
          ("prestador_endereco", optField "string" "Prestador Endereco"),
          ("tomador_cnpj", optField "string" "Tomador Cnpj"),
          ("tomador_razao_social", optField "string" "Tomador Razao Social"),
          ("tomador_inscricao_municipal", optField "string" "Tomador Inscricao Municipal"),
          ("tomador_endereco", optField "string" "Tomador Endereco"),
          ("valor_total", optField "number" "Valor Total"),
          ("valor_servicos", optField "number" "Valor Servicos"),
          ("valor_iss", optField "number" "Valor Iss"),
          ("aliquota_iss", optField "number" "Aliquota Iss"),
          ("base_calculo", optField "number" "Base Calculo"),
          ("iss_retido", optField "boolean" "Iss Retido"),
          ("valor_liquido", optField "number" "Valor Liquido"),
          ("valor_pis", optField "number" "Valor Pis"),
          ("valor_cofins", optField "number" "Valor Cofins"),
          ("valor_ir", optField "number" "Valor Ir"),
          ("valor_csll", optField "number" "Valor Csll"),
          ("valor_inss", optField "number" "Valor Inss"),
          ("discriminacao_servicos", optField "string" "Discriminacao Servicos"),
          ("codigo_servico", optField "string" "Codigo Servico"),
          ("cnae", optField "string" "Cnae"),
          ("itens_servico", .obj [
             ("items", .obj [("$ref", .str "#/$defs/NFSeItem")]),
             ("title", .str "Itens Servico"),
             ("type", .str "array")]),
          ("municipio_prestacao", optField "string" "Municipio Prestacao"),
          ("outras_informacoes", optField "string" "Outras Informacoes")]),
        ("title", .str "NFSeData"),
        ("type", .str "object")]

/-! ## The ExtractionRecord: `NFSeData` / `NFSeItem` from `app/models/schemas.py` -/

/-- A line item of the invoice (`NFSeItem`). -/
structure NFSeItem where
  descricao : String
  quantidade : Option Rat
  valor_unitario : Option Rat
  valor_total : Option Rat
deriving DecidableEq, Repr

/-- The structured extraction output (`NFSeData`), in declaration order. -/
structure NFSeData where
  numero_nota : Option String
  data_emissao : Option String
  codigo_verificacao : Option String
  prestador_cnpj : Option String
  prestador_razao_social : Option String
  prestador_inscricao_municipal : Option String
  prestador_endereco : Option String
  tomador_cnpj : Option String
  tomador_razao_social : Option String
  tomador_inscricao_municipal : Option String
  tomador_endereco : Option String
  valor_total : Option Rat
  valor_servicos : Option Rat
  valor_iss : Option Rat
  aliquota_iss : Option Rat
  base_calculo : Option Rat
  iss_retido : Option Bool
  valor_liquido : Option Rat
  valor_pis : Option Rat
  valor_cofins : Option Rat
  valor_ir : Option Rat
  valor_csll : Option Rat
  valor_inss : Option Rat
  discriminacao_servicos : Option String
  codigo_servico : Option String
  cnae : Option String
  itens_servico : List NFSeItem
  municipio_prestacao : Option String
  outras_informacoes : Option String
deriving DecidableEq, Repr

/-! ## Validation (`NFSeData(**data_dict)`)

Pydantic construction semantics for these models: a field that is absent
takes its declared default (`None`, or `[]` for `itens_servico`), `null`
is accepted by every `Optional` field, a present value must match the
declared type, and unknown keys are ignored (default `extra` behaviour).
Numeric/boolean string coercions of pydantic's lax mode are not modelled;
schema-constrained payloads never exercise them. -/

/-- Validates an `Optional[str]` field value. -/
def vOptStr : Option Json → Except String (Option String)
  | none => .ok none
  | some .null => .ok none
  | some (.str s) => .ok (some s)
  | some _ => .error "Input should be a valid string"

/-- Validates an `Optional[float]` field value (JSON ints and floats are
both numbers here). -/
def vOptNum : Option Json → Except String (Option Rat)
  | none => .ok none
  | some .null => .ok none
  | some (.num q) => .ok (some q)
  | some _ => .error "Input should be a valid number"

/-- Validates an `Optional[bool]` field value. -/
def vOptBool : Option Json → Except String (Option Bool)
  | none => .ok none
  | some .null => .ok none
  | some (.bool b) => .ok (some b)
  | some _ => .error "Input should be a valid boolean"

/-- Validates one entry of `itens_servico` against `NFSeItem`
(`descricao` has no default and must be present). -/
def validateNFSeItem : Json → Except String NFSeItem
  | .obj kvs => do
      let descricao ← match lookupA kvs "descricao" with
        | some (.str s) => Except.ok s
        | _ => Except.error "descricao: Input should be a valid string"
      let quantidade ← vOptNum (lookupA kvs "quantidade")
      let valor_unitario ← vOptNum (lookupA kvs "valor_unitario")
      let valor_total ← vOptNum (lookupA kvs "valor_total")
      .ok ⟨descricao, quantidade, valor_unitario, valor_total⟩
  | _ => .error "Input should be a valid dictionary"

/-- Validates the `itens_servico` field (default `[]`, `null` rejected:
the field is `List[NFSeItem]`, not `Optional`). -/
def vItems : Option Json → Except String (List NFSeItem)
  | none => .ok []
  | some (.arr xs) => xs.mapM validateNFSeItem
  | some _ => .error "Input should be a valid list"

/-- Field-by-field validation of a decoded payload dict against
`NFSeData`'s shape, i.e. `NFSeData(**data_dict)`. -/
def validateNFSeData (kvs : List (String × Json)) : Except String NFSeData := do
  let numero_nota ← vOptStr (lookupA kvs "numero_nota")
  let data_emissao ← vOptStr (lookupA kvs "data_emissao")
  let codigo_verificacao ← vOptStr (lookupA kvs "codigo_verificacao")
  let prestador_cnpj ← vOptStr (lookupA kvs "prestador_cnpj")
  let prestador_razao_social ← vOptStr (lookupA kvs "prestador_razao_social")
  let prestador_inscricao_municipal ← vOptStr (lookupA kvs "prestador_inscricao_municipal")
  let prestador_endereco ← vOptStr (lookupA kvs "prestador_endereco")
  let tomador_cnpj ← vOptStr (lookupA kvs "tomador_cnpj")
  let tomador_razao_social ← vOptStr (lookupA kvs "tomador_razao_social")
  let tomador_inscricao_municipal ← vOptStr (lookupA kvs "tomador_inscricao_municipal")
  let tomador_endereco ← vOptStr (lookupA kvs "tomador_endereco")
  let valor_total ← vOptNum (lookupA kvs "valor_total")
  let valor_servicos ← vOptNum (lookupA kvs "valor_servicos")
  let valor_iss ← vOptNum (lookupA kvs "valor_iss")
  let aliquota_iss ← vOptNum (lookupA kvs "aliquota_iss")
  let base_calculo ← vOptNum (lookupA kvs "base_calculo")
  let iss_retido ← vOptBool (lookupA kvs "iss_retido")
  let valor_liquido ← vOptNum (lookupA kvs "valor_liquido")
  let valor_pis ← vOptNum (lookupA kvs "valor_pis")
  let valor_cofins ← vOptNum (lookupA kvs "valor_cofins")
  let valor_ir ← vOptNum (lookupA kvs "valor_ir")
  let valor_csll ← vOptNum (lookupA kvs "valor_csll")
  let valor_inss ← vOptNum (lookupA kvs "valor_inss")
  let discriminacao_servicos ← vOptStr (lookupA kvs "discriminacao_servicos")
  let codigo_servico ← vOptStr (lookupA kvs "codigo_servico")
  let cnae ← vOptStr (lookupA kvs "cnae")
  let itens_servico ← vItems (lookupA kvs "itens_servico")
  let municipio_prestacao ← vOptStr (lookupA kvs "municipio_prestacao")
  let outras_informacoes ← vOptStr (lookupA kvs "outras_informacoes")
  .ok { numero_nota := numero_nota, data_emissao := data_emissao,
        codigo_verificacao := codigo_verificacao,
        prestador_cnpj := prestador_cnpj,
        prestador_razao_social := prestador_razao_social,
        prestador_inscricao_municipal := prestador_inscricao_municipal,
        prestador_endereco := prestador_endereco,
        tomador_cnpj := tomador_cnpj,
        tomador_razao_social := tomador_razao_social,
        tomador_inscricao_municipal := tomador_inscricao_municipal,
        tomador_endereco := tomador_endereco,
        valor_total := valor_total, valor_servicos := valor_servicos,
        valor_iss := valor_iss, aliquota_iss := aliquota_iss,
        base_calculo := base_calculo, iss_retido := iss_retido,
        valor_liquido := valor_liquido, valor_pis := valor_pis,
        valor_cofins := valor_cofins, valor_ir := valor_ir,
        valor_csll := valor_csll, valor_inss := valor_inss,
        discriminacao_servicos := discriminacao_servicos,
        codigo_servico := codigo_servico, cnae := cnae,
        itens_servico := itens_servico,
        municipio_prestacao := municipio_prestacao,
        outras_informacoes := outras_informacoes }

/-- The parse-and-validate step of `run_extraction`
(`json.loads(content)` followed by `NFSeData(**data_dict)`): the model's
text payload is given as `none` when `json.loads` fails, otherwise as the
decoded JSON value; a decoded payload that is not a dict fails when
splatted into the constructor. -/
def parseValidate : Option Json → Except String NFSeData
  | none => .error "Expecting value: json decode failure"
  | some (.obj kvs) => validateNFSeData kvs
  | some _ => .error "argument after ** must be a mapping"

/-! ## The extraction pipeline (`app/services/openai_service.py`)

External collaborators — PyMuPDF/Pillow rendering, the md5 digest, and the
OpenAI endpoint — are modelled as data: a `PdfDoc` carries the behaviour
the libraries exhibit on its bytes, and an `Env` carries the digest
function and the outcome of each external call attempt. -/

/-- Raw document bytes. -/
abbrev ByteSeq := List Nat

/-- A submitted document together with the behaviour of the external
document libraries on its bytes: whether `fitz.open` succeeds, the page
count it reports, and the base64 JPEG the render-enhance-reencode chain
produces for the first page.  All three are functions of the bytes. -/
structure PdfDoc where
  bytes : ByteSeq
  opensOk : Bool
  pageCount : Nat
  rendered : String
deriving DecidableEq, Repr

/-- Everything `client.chat.completions.create` sends on one attempt:
the model name, the compiled schema attached as a strict
`response_format` (and embedded, JSON-dumped, in the system prompt), the
fixed user instruction and the base64 image payload. -/
structure InvocationDescriptor where
  model : String
  imageBase64 : String
  schema : Json
  strict : Bool
  userPrompt : String

/-- What an external call returns: token usage and the message content,
already decoded (`none` models content on which `json.loads` raises). -/
structure ModelResponse where
  content : Option Json
  prompt_tokens : Nat
  completion_tokens : Nat

/-- The external world: `get_pdf_hash`'s md5 hexdigest, and the outcome of
the n-th `client.chat.completions.create` attempt for a given descriptor
(`.error` models any raised exception: network error, rate limit, ...). -/
structure Env where
  get_pdf_hash : ByteSeq → String
  attempt : InvocationDescriptor → Nat → Except String ModelResponse

/-- The in-memory `extraction_cache` dict, keyed by content hash. -/
abbrev Cache := List (String × NFSeData)

/-- The error taxonomy of a failed request, tagged by which pipeline step
raised (in the Python source all three surface as raised exceptions). -/
inductive PipeError where
  | documentError (msg : String)
  | modelError (msg : String)
  | validationError (msg : String)
deriving DecidableEq, Repr

/-- `process_pdf_to_enhanced_image`: renders the first page of the PDF to
an enhanced base64 JPEG; if the document fails to open or reports zero
pages, the raised error is wrapped into
`ValueError("Falha ao processar imagem para OCR: ...")`. -/
def process_pdf_to_enhanced_image (pdf : PdfDoc) : Except String String :=
  if pdf.opensOk = false then
    .error "Falha ao processar imagem para OCR: falha ao abrir o documento"
  else if pdf.pageCount = 0 then
    .error "Falha ao processar imagem para OCR: O PDF não contém páginas."
  else
    .ok pdf.rendered

/-- The `model_params` plus model name passed identically to both call
attempts: model `gpt-5-nano-2025-08-07`, the schema compiled by
`add_additional_properties_false` from the pydantic-derived schema,
attached with `strict: True`. -/
def buildDescriptor (imageBase64 : String) : InvocationDescriptor :=
  { model := "gpt-5-nano-2025-08-07"
    imageBase64 := imageBase64
    schema := add_additional_properties_false nfseDataJsonSchema
    strict := true
    userPrompt := "Analise esta imagem de NFS-e e extraia os dados conforme o schema, focando na precisão do Número e Código de Verificação." }

/-- Outcome of one request: the returned record or raised error, the
cache afterwards, the log of external call attempts actually issued
(each entry one `client.chat.completions.create`), and how many times the
gateway section (the call-with-retry block) was entered. -/
structure ExtractOutcome where
  result : Except PipeError NFSeData
  cache : Cache
  callLog : List InvocationDescriptor
  gatewayInvokes : Nat

/-- The tail of `run_extraction` after a response was obtained: parse the
content, validate it, and only on success write the cache. -/
def parseAndCache (cache : Cache) (h : String) (resp : ModelResponse)
    (log : List InvocationDescriptor) : ExtractOutcome :=
  match parseValidate resp.content with
  | .ok record => ⟨.ok record, setA cache h record, log, 1⟩
  | .error e =>
      ⟨.error (.validationError ("Erro ao processar dados extraídos: " ++ e)),
       cache, log, 1⟩

/-- The body of the inner `run_extraction` coroutine (the work done while
holding `heavy_task_semaphore`; the semaphore itself is modelled by the
transition system further below): render the image, call the external
model with one immediate identical retry on any exception, then parse,
validate and cache. -/
def run_extraction (env : Env) (cache : Cache) (h : String) (pdf : PdfDoc) :
    ExtractOutcome :=
  match process_pdf_to_enhanced_image pdf with
  | .error e => ⟨.error (.documentError e), cache, [], 0⟩
  | .ok image_base64 =>
      match env.attempt (buildDescriptor image_base64) 0 with
      | .ok response =>
          parseAndCache cache h response [buildDescriptor image_base64]
      | .error _ =>
          match env.attempt (buildDescriptor image_base64) 1 with
          | .ok response =>
              parseAndCache cache h response
                [buildDescriptor image_base64, buildDescriptor image_base64]
          | .error e2 =>
              ⟨.error (.modelError e2), cache,
               [buildDescriptor image_base64, buildDescriptor image_base64], 1⟩

/-- `extract_data_from_pdf`: hash the content, return the cached record on
a hit, otherwise run the extraction and (on success) cache its result. -/
def extract_data_from_pdf (env : Env) (cache : Cache) (pdf : PdfDoc) :
    ExtractOutcome :=
  match lookupA cache (env.get_pdf_hash pdf.bytes) with
  | some record => ⟨.ok record, cache, [], 0⟩
  | none => run_extraction env cache (env.get_pdf_hash pdf.bytes) pdf

/-- The first five bytes of every PDF: `b"%PDF-"`. -/
def pdfMagic : ByteSeq := [0x25, 0x50, 0x44, 0x46, 0x2D]

/-- Outcome of one request at the endpoint: either the record or an HTTP
error status with detail. -/
structure EndpointOutcome where
  response : Except (Nat × String) NFSeData
  cache : Cache
  callLog : List InvocationDescriptor

/-- The `/extract` endpoint body from `app/main.py`, after base64
decoding: reject anything whose header is not `b"%PDF-"` with a 400
before extraction starts; otherwise run the pipeline, mapping any raised
error to a 500. -/
def extract_nfse (env : Env) (cache : Cache) (pdf : PdfDoc) : EndpointOutcome :=
  if pdfMagic.isPrefixOf pdf.bytes then
    let o := extract_data_from_pdf env cache pdf
    match o.result with
    | .ok record => ⟨.ok record, o.cache, o.callLog⟩
    | .error e =>
        let msg := match e with
          | .documentError m => m
          | .modelError m => m
          | .validationError m => m
        ⟨.error (500, "Erro interno no processamento: " ++ msg), o.cache, o.callLog⟩
  else
    ⟨.error (400, "O arquivo enviado não é um PDF válido."), cache, []⟩

/-! ## Concurrency: the admission gate (`heavy_task_semaphore`)

`asyncio.Semaphore(MAX_CONCURRENT_EXTRACTIONS)` guards the whole body of
`run_extraction`: a request acquires a permit before any heavy work, may
then issue external calls (the in-flight section), and releases the permit
on exit.  Requests are interchangeable, so a system state is the count of
requests in each phase plus the free-permit count; a step is one request
moving between phases under the cooperative scheduler. -/

/-- The admission ceiling from the source. -/
def MAX_CONCURRENT_EXTRACTIONS : Nat := 15

/-- Counts of requests per phase plus the semaphore's free permits.
`acquired` requests hold a permit but have no call in flight (image
rendering, parsing); `calling` requests hold a permit with an external
call in flight. -/
structure SemSystem where
  permits : Nat
  pending : Nat
  acquired : Nat
  calling : Nat
  released : Nat
deriving DecidableEq, Repr

/-- `N` requests submitted concurrently, none yet admitted, all permits
free. -/
def initSystem (n : Nat) : SemSystem :=
  ⟨MAX_CONCURRENT_EXTRACTIONS, n, 0, 0, 0⟩

/-- One scheduler step.  `acquire` needs a free permit (`async with
heavy_task_semaphore` suspends otherwise); a held permit is only returned
by `release`, on every exit path of the `async with` block. -/
inductive SemStep : SemSystem → SemSystem → Prop where
  | acquire (s : SemSystem) (hp : 0 < s.permits) (hq : 0 < s.pending) :
      SemStep s ⟨s.permits - 1, s.pending - 1, s.acquired + 1, s.calling, s.released⟩
  | beginCall (s : SemSystem) (h : 0 < s.acquired) :
      SemStep s ⟨s.permits, s.pending, s.acquired - 1, s.calling + 1, s.released⟩
  | endCall (s : SemSystem) (h : 0 < s.calling) :
      SemStep s ⟨s.permits, s.pending, s.acquired + 1, s.calling - 1, s.released⟩
  | release (s : SemSystem) (h : 0 < s.acquired) :
      SemStep s ⟨s.permits + 1, s.pending, s.acquired - 1, s.calling, s.released + 1⟩

/-- Semaphore accounting: free permits plus held permits is constant. -/
def permitInvariant (s : SemSystem) : Prop :=
  s.permits + s.acquired + s.calling = MAX_CONCURRENT_EXTRACTIONS

/-! ## Concurrency: the cache-miss race

Two first-time requests for the same document content, interleaved
cooperatively.  Each request performs two atomic phases taken verbatim
from `extract_data_from_pdf`: the cache membership check
(`if pdf_hash in extraction_cache`), and — only if it observed a miss —
the external call followed by the cache write
(`extraction_cache[pdf_hash] = result`). -/

/-- Progress of one request in the race. -/
inductive RacePhase where
  | start
  | missed
  | finished
deriving DecidableEq, Repr

/-- State of the shared cache (restricted to the one hash in play), the
two requests, and the number of external calls issued so far. -/
structure RaceState where
  cached : Bool
  r1 : RacePhase
  r2 : RacePhase
  calls : Nat
deriving DecidableEq, Repr

/-- Scheduler events: which request runs which phase next. -/
inductive RaceLabel where
  | check1
  | work1
  | check2
  | work2
deriving DecidableEq, Repr

/-- Effect of one scheduled event (events that are not enabled change
nothing). -/
def raceStep (s : RaceState) : RaceLabel → RaceState
  | .check1 =>
      if s.r1 = .start then
        if s.cached then { s with r1 := .finished } else { s with r1 := .missed }
      else s
  | .work1 =>
      if s.r1 = .missed then
        { s with r1 := .finished, cached := true, calls := s.calls + 1 }
      else s
  | .check2 =>
      if s.r2 = .start then
        if s.cached then { s with r2 := .finished } else { s with r2 := .missed }
      else s
  | .work2 =>
      if s.r2 = .missed then
        { s with r2 := .finished, cached := true, calls := s.calls + 1 }
      else s

/-- Both requests arrive before the hash is cached. -/
def raceInit : RaceState := ⟨false, .start, .start, 0⟩

/-- Runs a schedule from the initial race state. -/
def raceRun (schedule : List RaceLabel) : RaceState :=
  schedule.foldl raceStep raceInit

/-- How many further external calls a request in this phase can still
cause (a finished request never calls again). -/
def canCall : RacePhase → Nat
  | .finished => 0
  | _ => 1

/-! ## Concrete fixtures used to instantiate the theorems -/

/-- A well-formed one-page PDF. -/
def demoPdf : PdfDoc :=
  ⟨[0x25, 0x50, 0x44, 0x46, 0x2D, 0x31, 0x2E, 0x34], true, 1, "imagem"⟩

/-- A document that opens but reports zero pages. -/
def demoPdfNoPages : PdfDoc := ⟨[0x25, 0x50, 0x44, 0x46, 0x2D], true, 0, ""⟩

/-- A submission whose first bytes are a ZIP header, not `b"%PDF-"`. -/
def demoNotAPdf : PdfDoc := ⟨[0x50, 0x4B, 0x03, 0x04], true, 1, ""⟩

/-- The mocked external text payload
`{"numero_nota":"1234","valor_total":100.0}` after `json.loads`. -/
def mockedPayload : Json :=
  .obj [("numero_nota", .str "1234"), ("valor_total", .num 100)]

/-- The record the mocked payload must validate into: `numero_nota` and
`valor_total` set, every other field absent/null (and no line items). -/
def mockedRecord : NFSeData :=
  { numero_nota := some "1234", data_emissao := none,
    codigo_verificacao := none, prestador_cnpj := none,
    prestador_razao_social := none, prestador_inscricao_municipal := none,
    prestador_endereco := none, tomador_cnpj := none,
    tomador_razao_social := none, tomador_inscricao_municipal := none,
    tomador_endereco := none, valor_total := some 100,
    valor_servicos := none, valor_iss := none, aliquota_iss := none,
    base_calculo := none, iss_retido := none, valor_liquido := none,
    valor_pis := none, valor_cofins := none, valor_ir := none,
    valor_csll := none, valor_inss := none,
    discriminacao_servicos := none, codigo_servico := none, cnae := none,
    itens_servico := [], municipio_prestacao := none,
    outras_informacoes := none }

/-- An environment whose external service always answers the mocked
payload. -/
def demoEnv : Env :=
  { get_pdf_hash := fun _ => "9f2c0ffdfd4878bd1210b16b1b2055e1"
    attempt := fun _ _ => .ok ⟨some mockedPayload, 1000, 50⟩ }

/-- An environment whose external service raises on every attempt. -/
def demoEnvDown : Env :=
  { get_pdf_hash := fun _ => "9f2c0ffdfd4878bd1210b16b1b2055e1"
    attempt := fun _ _ => .error "APIConnectionError" }

/-- An environment whose external service answers a payload of the wrong
shape (`numero_nota` as a number instead of a string). -/
def demoEnvBadPayload : Env :=
  { get_pdf_hash := fun _ => "9f2c0ffdfd4878bd1210b16b1b2055e1"
    attempt := fun _ _ => .ok ⟨some (.obj [("numero_nota", .num 5)]), 1000, 50⟩ }

/-! # Theorems -/

/-! ## Association-list and frame lemmas -/

theorem lookupA_setA_self {α : Type} (l : List (String × α)) (k : String) (v : α) :
    lookupA (setA l k v) k = some v := by
  induction l with
  | nil => simp [setA, lookupA]
  | cons p rest ih =>
      obtain ⟨k', v'⟩ := p
      by_cases h : k' = k
      · simp [setA, h, lookupA]
      · simp [setA, h, lookupA, ih]

theorem eraseAddedList_setA_dropped (l : List (String × Json)) (k : String)
    (v : Json) (hk : k = "additionalProperties" ∨ k = "required") :
    eraseAddedList (setA l k v) = eraseAddedList l := by
  induction l with
  | nil => simp [setA, eraseAddedList, hk]
  | cons p rest ih =>
      obtain ⟨k', v'⟩ := p
      by_cases h : k' = k
      · subst h
        simp [setA, eraseAddedList, hk]
      · by_cases h' : k' = "additionalProperties" ∨ k' = "required"
        · simp [setA, h, eraseAddedList, h', ih]
        · simp [setA, h, eraseAddedList, h', ih]

mutual
theorem eraseAdded_aapf :
    ∀ j : Json, eraseAdded (add_additional_properties_false j) = eraseAdded j
  | .null => rfl
  | .bool _ => rfl
  | .num _ => rfl
  | .str _ => rfl
  | .arr xs => by
      simp only [add_additional_properties_false, eraseAdded]
      rw [eraseAddedArr_aapfArr xs]
  | .obj kvs => by
      simp only [add_additional_properties_false, eraseAdded]
      by_cases ht : typeIsObject kvs = true
      · by_cases hp : hasKeyA kvs "properties" = true
        · simp only [ht, hp, if_true, eraseAdded]
          rw [eraseAddedList_setA_dropped _ _ _ (Or.inr rfl),
              eraseAddedList_setA_dropped _ _ _ (Or.inl rfl),
              eraseAddedList_aapfList kvs]
        · simp only [ht, hp, if_true, if_false, Bool.false_eq_true, eraseAdded]
          rw [eraseAddedList_setA_dropped _ _ _ (Or.inl rfl),
              eraseAddedList_aapfList kvs]
      · simp only [ht, if_false, Bool.false_eq_true, eraseAdded]
        rw [eraseAddedList_aapfList kvs]

theorem eraseAddedList_aapfList :
    ∀ kvs : List (String × Json), eraseAddedList (aapfList kvs) = eraseAddedList kvs
  | [] => rfl
  | (k, v) :: rest => by
      by_cases h : k = "additionalProperties" ∨ k = "required"
      · simp [aapfList, eraseAddedList, h, eraseAddedList_aapfList rest]
      · simp [aapfList, eraseAddedList, h, eraseAddedList_aapfList rest,
              eraseAdded_aapf v]

theorem eraseAddedArr_aapfArr :
    ∀ xs : List Json, eraseAddedArr (aapfArr xs) = eraseAddedArr xs
  | [] => rfl
  | x :: rest => by
      simp [aapfArr, eraseAddedArr, eraseAdded_aapf x, eraseAddedArr_aapfArr rest]
end

theorem aapfList_keys (kvs : List (String × Json)) :
    (aapfList kvs).map Prod.fst = kvs.map Prod.fst := by
  induction kvs with
  | nil => rfl
  | cons p rest ih =>
      obtain ⟨k, v⟩ := p
      simp [aapfList, ih]

/-! ## Claim theorems -/

/-- C6: the schema contract compiled by `add_additional_properties_false`
from the declared record shape (`NFSeData`, with its nested `NFSeItem`
list-item shape) carries, on every object-typed node recursively, the
`additionalProperties: false` constraint and a `required` list exactly
equal to that node's declared property names. -/
theorem compiled_schema_strict :
    strictAll (add_additional_properties_false nfseDataJsonSchema) = true := by
  decide

/-- C9: the mocked external payload
`{"numero_nota":"1234","valor_total":100.0}` parses and validates into an
`NFSeData` record with `numero_nota == "1234"`, `valor_total == 100.0`,
and every other field absent/null (no line items). -/
theorem mocked_payload_parses :
    parseValidate (some mockedPayload) = .ok mockedRecord ∧
    mockedRecord.numero_nota = some "1234" ∧
    mockedRecord.valor_total = some 100 ∧
    mockedRecord.data_emissao = none ∧
    mockedRecord.codigo_verificacao = none ∧
    mockedRecord.prestador_cnpj = none ∧
    mockedRecord.prestador_razao_social = none ∧
    mockedRecord.prestador_inscricao_municipal = none ∧
    mockedRecord.prestador_endereco = none ∧
    mockedRecord.tomador_cnpj = none ∧
    mockedRecord.tomador_razao_social = none ∧
    mockedRecord.tomador_inscricao_municipal = none ∧
    mockedRecord.tomador_endereco = none ∧
    mockedRecord.valor_servicos = none ∧
    mockedRecord.valor_iss = none ∧
    mockedRecord.aliquota_iss = none ∧
    mockedRecord.base_calculo = none ∧
    mockedRecord.iss_retido = none ∧
    mockedRecord.valor_liquido = none ∧
    mockedRecord.valor_pis = none ∧
    mockedRecord.valor_cofins = none ∧
    mockedRecord.valor_ir = none ∧
    mockedRecord.valor_csll = none ∧
    mockedRecord.valor_inss = none ∧
    mockedRecord.discriminacao_servicos = none ∧
    mockedRecord.codigo_servico = none ∧
    mockedRecord.cnae = none ∧
    mockedRecord.itens_servico = [] ∧
    mockedRecord.municipio_prestacao = none ∧
    mockedRecord.outras_informacoes = none :=
  ⟨rfl, by decide⟩

/-- C10: the schema compiler changes nothing outside the two keys it is
allowed to write: erasing `additionalProperties`/`required` keys from its
output gives back the input with those keys erased (so every non-object
node, every declared property and every type annotation is preserved),
and on a dict node that is not object-typed the key set is untouched. -/
theorem schema_compiler_frame :
    (∀ j : Json,
        eraseAdded (add_additional_properties_false j) = eraseAdded j) ∧
    (∀ kvs : List (String × Json), typeIsObject kvs = false →
        jsonKeys (add_additional_properties_false (.obj kvs)) =
          jsonKeys (.obj kvs)) := by
  refine ⟨eraseAdded_aapf, fun kvs ht => ?_⟩
  simp only [add_additional_properties_false, ht, Bool.false_eq_true,
    if_false, jsonKeys]
  exact aapfList_keys kvs

/-- Witness for C10 at concrete inputs: the compiled `NFSeData` schema,
and a string-typed node. -/
theorem schema_compiler_frame_witness :
    eraseAdded (add_additional_properties_false nfseDataJsonSchema) =
        eraseAdded nfseDataJsonSchema ∧
    jsonKeys (add_additional_properties_false
        (.obj [("type", .str "string"), ("title", .str "Cnae")])) =
      jsonKeys (.obj [("type", .str "string"), ("title", .str "Cnae")]) :=
  ⟨schema_compiler_frame.1 nfseDataJsonSchema,
   schema_compiler_frame.2 [("type", .str "string"), ("title", .str "Cnae")]
     (by decide)⟩

/-- C2 counterexample: in the source's shared-dictionary cache, the
interleaving in which both first-time requests pass the cache membership
check before either writes the cache ends with both requests finished and
two external calls for the same content hash. -/
theorem cache_race_two_calls :
    (raceRun [.check1, .check2, .work1, .work2]).calls = 2 ∧
    ¬ (raceRun [.check1, .check2, .work1, .work2]).calls ≤ 1 ∧
    (raceRun [.check1, .check2, .work1, .work2]).r1 = .finished ∧
    (raceRun [.check1, .check2, .work1, .work2]).r2 = .finished := by
  decide

theorem raceStep_bound (s : RaceState) (l : RaceLabel)
    (h : s.calls + canCall s.r1 + canCall s.r2 ≤ 2) :
    (raceStep s l).calls + canCall (raceStep s l).r1 +
      canCall (raceStep s l).r2 ≤ 2 := by
  cases l <;> cases hr1 : s.r1 <;> cases hr2 : s.r2 <;>
    cases hc : s.cached <;> simp_all [raceStep, canCall] <;> omega

theorem race_calls_le_two (schedule : List RaceLabel) :
    (raceRun schedule).calls ≤ 2 := by
  have key : ∀ s : RaceState, s.calls + canCall s.r1 + canCall s.r2 ≤ 2 →
      (schedule.foldl raceStep s).calls +
        canCall (schedule.foldl raceStep s).r1 +
        canCall (schedule.foldl raceStep s).r2 ≤ 2 := by
    induction schedule with
    | nil => intro s hs; simpa using hs
    | cons l rest ih => intro s hs; exact ih _ (raceStep_bound s l hs)
  have h := key raceInit (by decide)
  unfold raceRun
  omega

/-- C2 amended: two concurrent first-time requests for the same content
may each perform an external call (never more than two in total across
any schedule); at most one external invocation per content hash is only
guaranteed when the requests are serialized, i.e. one request's cache
write precedes the other's cache check, as in the two serial schedules. -/
theorem cache_race_serialized :
    (∀ schedule : List RaceLabel, (raceRun schedule).calls ≤ 2) ∧
    ((raceRun [.check1, .work1, .check2, .work2]).calls = 1 ∧
      (raceRun [.check1, .work1, .check2, .work2]).r1 = .finished ∧
      (raceRun [.check1, .work1, .check2, .work2]).r2 = .finished) ∧
    ((raceRun [.check2, .work2, .check1, .work1]).calls = 1 ∧
      (raceRun [.check2, .work2, .check1, .work1]).r1 = .finished ∧
      (raceRun [.check2, .work2, .check1, .work1]).r2 = .finished) :=
  ⟨race_calls_le_two, by decide, by decide⟩

theorem permitInvariant_step {s s' : SemSystem} (hs : permitInvariant s)
    (h : SemStep s s') : permitInvariant s' := by
  cases h with
  | acquire hp hq => simp_all [permitInvariant]; omega
  | beginCall h => simp_all [permitInvariant]; omega
  | endCall h => simp_all [permitInvariant]; omega
  | release h => simp_all [permitInvariant]; omega

theorem permitInvariant_reach {s s' : SemSystem} (hs : permitInvariant s)
    (h : Relation.ReflTransGen SemStep s s') : permitInvariant s' := by
  induction h with
  | refl => exact hs
  | tail _ hstep ih => exact permitInvariant_step ih hstep

/-- C3: with `N` concurrent extraction requests, `N` above the admission
ceiling of `heavy_task_semaphore`, every state the cooperative scheduler
can reach has at most `MAX_CONCURRENT_EXTRACTIONS = 15` external calls in
flight simultaneously. -/
theorem concurrency_bound (N : Nat) (_hN : MAX_CONCURRENT_EXTRACTIONS < N)
    (s : SemSystem)
    (hreach : Relation.ReflTransGen SemStep (initSystem N) s) :
    s.calling ≤ MAX_CONCURRENT_EXTRACTIONS := by
  have hinv : permitInvariant s := by
    refine permitInvariant_reach ?_ hreach
    simp [permitInvariant, initSystem]
  unfold permitInvariant at hinv
  omega

/-! ## Characterizations of the pipeline branches -/

theorem extract_hit (env : Env) (cache : Cache) (pdf : PdfDoc) (r : NFSeData)
    (hl : lookupA cache (env.get_pdf_hash pdf.bytes) = some r) :
    extract_data_from_pdf env cache pdf = ⟨.ok r, cache, [], 0⟩ := by
  unfold extract_data_from_pdf
  rw [hl]

theorem extract_miss (env : Env) (cache : Cache) (pdf : PdfDoc)
    (hl : lookupA cache (env.get_pdf_hash pdf.bytes) = none) :
    extract_data_from_pdf env cache pdf =
      run_extraction env cache (env.get_pdf_hash pdf.bytes) pdf := by
  unfold extract_data_from_pdf
  rw [hl]

theorem run_extraction_docfail (env : Env) (cache : Cache) (h : String)
    (pdf : PdfDoc) (e : String)
    (he : process_pdf_to_enhanced_image pdf = .error e) :
    run_extraction env cache h pdf =
      ⟨.error (.documentError e), cache, [], 0⟩ := by
  unfold run_extraction
  rw [he]

theorem run_extraction_first_ok (env : Env) (cache : Cache) (h : String)
    (pdf : PdfDoc) (image : String) (resp : ModelResponse)
    (he : process_pdf_to_enhanced_image pdf = .ok image)
    (ha : env.attempt (buildDescriptor image) 0 = .ok resp) :
    run_extraction env cache h pdf =
      parseAndCache cache h resp [buildDescriptor image] := by
  simp only [run_extraction, he, ha]

theorem run_extraction_retry_ok (env : Env) (cache : Cache) (h : String)
    (pdf : PdfDoc) (image : String) (e1 : String) (resp : ModelResponse)
    (he : process_pdf_to_enhanced_image pdf = .ok image)
    (h0 : env.attempt (buildDescriptor image) 0 = .error e1)
    (h1 : env.attempt (buildDescriptor image) 1 = .ok resp) :
    run_extraction env cache h pdf =
      parseAndCache cache h resp
        [buildDescriptor image, buildDescriptor image] := by
  simp only [run_extraction, he, h0, h1]

theorem run_extraction_retry_fail (env : Env) (cache : Cache) (h : String)
    (pdf : PdfDoc) (image : String) (e1 e2 : String)
    (he : process_pdf_to_enhanced_image pdf = .ok image)
    (h0 : env.attempt (buildDescriptor image) 0 = .error e1)
    (h1 : env.attempt (buildDescriptor image) 1 = .error e2) :
    run_extraction env cache h pdf =
      ⟨.error (.modelError e2), cache,
       [buildDescriptor image, buildDescriptor image], 1⟩ := by
  simp only [run_extraction, he, h0, h1]

theorem parseAndCache_ok (cache : Cache) (h : String) (resp : ModelResponse)
    (log : List InvocationDescriptor) (record : NFSeData)
    (hp : parseValidate resp.content = .ok record) :
    parseAndCache cache h resp log =
      ⟨.ok record, setA cache h record, log, 1⟩ := by
  unfold parseAndCache
  rw [hp]

theorem parseAndCache_err (cache : Cache) (h : String) (resp : ModelResponse)
    (log : List InvocationDescriptor) (e : String)
    (hp : parseValidate resp.content = .error e) :
    parseAndCache cache h resp log =
      ⟨.error (.validationError ("Erro ao processar dados extraídos: " ++ e)),
       cache, log, 1⟩ := by
  unfold parseAndCache
  rw [hp]

/-- A successful extraction always ends with the record stored in the
cache under the document's content hash, entered the gateway section at
most once, and issued all its call attempts with one single descriptor. -/
theorem extract_ok_cached (env : Env) (cache : Cache) (pdf : PdfDoc)
    (record : NFSeData)
    (h : (extract_data_from_pdf env cache pdf).result = .ok record) :
    lookupA (extract_data_from_pdf env cache pdf).cache
        (env.get_pdf_hash pdf.bytes) = some record ∧
    (extract_data_from_pdf env cache pdf).gatewayInvokes ≤ 1 ∧
    ∀ d1 ∈ (extract_data_from_pdf env cache pdf).callLog,
      ∀ d2 ∈ (extract_data_from_pdf env cache pdf).callLog, d1 = d2 := by
  cases hl : lookupA cache (env.get_pdf_hash pdf.bytes) with
  | some r =>
      rw [extract_hit env cache pdf r hl] at h ⊢
      cases h
      simpa using hl
  | none =>
      rw [extract_miss env cache pdf hl] at h ⊢
      cases he : process_pdf_to_enhanced_image pdf with
      | error e =>
          rw [run_extraction_docfail env cache _ pdf e he] at h
          cases h
      | ok image =>
          cases h0 : env.attempt (buildDescriptor image) 0 with
          | ok resp =>
              rw [run_extraction_first_ok env cache _ pdf image resp he h0] at h ⊢
              cases hp : parseValidate resp.content with
              | ok rec =>
                  rw [parseAndCache_ok _ _ _ _ rec hp] at h ⊢
                  cases h
                  simp [lookupA_setA_self]
              | error e =>
                  rw [parseAndCache_err _ _ _ _ e hp] at h
                  cases h
          | error e1 =>
              cases h1 : env.attempt (buildDescriptor image) 1 with
              | ok resp =>
                  rw [run_extraction_retry_ok env cache _ pdf image e1 resp
                        he h0 h1] at h ⊢
                  cases hp : parseValidate resp.content with
                  | ok rec =>
                      rw [parseAndCache_ok _ _ _ _ rec hp] at h ⊢
                      cases h
                      simp [lookupA_setA_self]
                  | error e =>
                      rw [parseAndCache_err _ _ _ _ e hp] at h
                      cases h
              | error e2 =>
                  rw [run_extraction_retry_fail env cache _ pdf image e1 e2
                        he h0 h1] at h
                  cases h

/-- C1: if extracting a document succeeded, extracting the byte-identical
document again returns the identical `ExtractionRecord`, the second
invocation issues zero external call attempts, the gateway section is
entered at most once across both invocations, and all call attempts ever
issued use one single identical invocation descriptor. -/
theorem extraction_idempotent (env : Env) (cache : Cache) (pdf : PdfDoc)
    (record : NFSeData)
    (h : (extract_data_from_pdf env cache pdf).result = .ok record) :
    (extract_data_from_pdf env
        (extract_data_from_pdf env cache pdf).cache pdf).result =
      .ok record ∧
    (extract_data_from_pdf env
        (extract_data_from_pdf env cache pdf).cache pdf).result =
      (extract_data_from_pdf env cache pdf).result ∧
    (extract_data_from_pdf env
        (extract_data_from_pdf env cache pdf).cache pdf).callLog = [] ∧
    (extract_data_from_pdf env cache pdf).gatewayInvokes +
      (extract_data_from_pdf env
        (extract_data_from_pdf env cache pdf).cache pdf).gatewayInvokes ≤ 1 ∧
    ∀ d1 ∈ (extract_data_from_pdf env cache pdf).callLog ++
            (extract_data_from_pdf env
              (extract_data_from_pdf env cache pdf).cache pdf).callLog,
      ∀ d2 ∈ (extract_data_from_pdf env cache pdf).callLog ++
              (extract_data_from_pdf env
                (extract_data_from_pdf env cache pdf).cache pdf).callLog,
        d1 = d2 := by
  obtain ⟨hcached, hgw, hlog⟩ := extract_ok_cached env cache pdf record h
  have h2 := extract_hit env (extract_data_from_pdf env cache pdf).cache pdf
    record hcached
  rw [h2]
  refine ⟨rfl, by rw [h], rfl, by simpa using hgw, ?_⟩
  simpa using hlog
/-- Witness for C3: sixteen concurrent requests, one admitted and now
calling, stay within the ceiling. -/
theorem concurrency_bound_witness :
    MAX_CONCURRENT_EXTRACTIONS < 16 ∧
    (⟨14, 15, 0, 1, 0⟩ : SemSystem).calling ≤ MAX_CONCURRENT_EXTRACTIONS := by
  refine ⟨by decide, concurrency_bound 16 (by decide) _ ?_⟩
  exact Relation.ReflTransGen.tail
    (Relation.ReflTransGen.tail Relation.ReflTransGen.refl
      (SemStep.acquire (initSystem 16) (by decide) (by decide)))
    (SemStep.beginCall ⟨14, 15, 1, 0, 0⟩ (by decide))


/-- Witness for C1: with an environment answering the mocked payload, a
second extraction of the same document returns the identical record with
an empty call log. -/
theorem extraction_idempotent_witness :
    (extract_data_from_pdf demoEnv
        (extract_data_from_pdf demoEnv [] demoPdf).cache demoPdf).result =
      .ok mockedRecord ∧
    (extract_data_from_pdf demoEnv
        (extract_data_from_pdf demoEnv [] demoPdf).cache demoPdf).callLog = [] :=
  ⟨(extraction_idempotent demoEnv [] demoPdf mockedRecord rfl).1,
   (extraction_idempotent demoEnv [] demoPdf mockedRecord rfl).2.2.1⟩

/-- C4: after a cache miss and successful encoding, the gateway issues a
first call; if it succeeds there is no retry and (for a payload that
validates) the parsed record is returned and cached; on any exception it
retries exactly once with the identical invocation descriptor (same
model, same parameters); if the retry succeeds its validated result is
returned and cached; if the retry also fails the error propagates as
fatal for the request and the cache is unchanged. -/
theorem gateway_retry_policy (env : Env) (cache : Cache) (pdf : PdfDoc)
    (image : String)
    (hmiss : lookupA cache (env.get_pdf_hash pdf.bytes) = none)
    (henc : process_pdf_to_enhanced_image pdf = .ok image) :
    (∀ resp record, env.attempt (buildDescriptor image) 0 = .ok resp →
        parseValidate resp.content = .ok record →
        (extract_data_from_pdf env cache pdf).result = .ok record ∧
        (extract_data_from_pdf env cache pdf).cache =
          setA cache (env.get_pdf_hash pdf.bytes) record ∧
        (extract_data_from_pdf env cache pdf).callLog =
          [buildDescriptor image]) ∧
    (∀ e1 resp record, env.attempt (buildDescriptor image) 0 = .error e1 →
        env.attempt (buildDescriptor image) 1 = .ok resp →
        parseValidate resp.content = .ok record →
        (extract_data_from_pdf env cache pdf).result = .ok record ∧
        (extract_data_from_pdf env cache pdf).cache =
          setA cache (env.get_pdf_hash pdf.bytes) record ∧
        (extract_data_from_pdf env cache pdf).callLog =
          [buildDescriptor image, buildDescriptor image]) ∧
    (∀ e1 e2, env.attempt (buildDescriptor image) 0 = .error e1 →
        env.attempt (buildDescriptor image) 1 = .error e2 →
        (extract_data_from_pdf env cache pdf).result =
          .error (.modelError e2) ∧
        (extract_data_from_pdf env cache pdf).cache = cache ∧
        (extract_data_from_pdf env cache pdf).callLog =
          [buildDescriptor image, buildDescriptor image]) := by
  rw [extract_miss env cache pdf hmiss]
  refine ⟨fun resp record h0 hp => ?_, fun e1 resp record h0 h1 hp => ?_,
    fun e1 e2 h0 h1 => ?_⟩
  · rw [run_extraction_first_ok env cache _ pdf image resp henc h0,
        parseAndCache_ok _ _ _ _ record hp]
    exact ⟨rfl, rfl, rfl⟩
  · rw [run_extraction_retry_ok env cache _ pdf image e1 resp henc h0 h1,
        parseAndCache_ok _ _ _ _ record hp]
    exact ⟨rfl, rfl, rfl⟩
  · rw [run_extraction_retry_fail env cache _ pdf image e1 e2 henc h0 h1]
    exact ⟨rfl, rfl, rfl⟩

/-- Witness for C4: a service that raises on both attempts terminates the
request with a ModelError, leaves the cache unchanged, and was called
exactly twice with the same descriptor. -/
theorem gateway_retry_policy_witness :
    (extract_data_from_pdf demoEnvDown [] demoPdf).result =
      .error (.modelError "APIConnectionError") ∧
    (extract_data_from_pdf demoEnvDown [] demoPdf).cache = [] ∧
    (extract_data_from_pdf demoEnvDown [] demoPdf).callLog =
      [buildDescriptor "imagem", buildDescriptor "imagem"] :=
  (gateway_retry_policy demoEnvDown [] demoPdf "imagem" rfl rfl).2.2
    "APIConnectionError" "APIConnectionError" rfl rfl

/-- C5: whenever the external call that got a response produced a payload
that fails to decode or fails field-by-field validation against
`NFSeData`'s shape, the whole request fails with a ValidationError and
the cache is exactly as before the request: no partial record is cached
or returned. -/
theorem validation_failure_no_partial_cache (env : Env) (cache : Cache)
    (pdf : PdfDoc) (image : String) (resp : ModelResponse) (e : String)
    (hmiss : lookupA cache (env.get_pdf_hash pdf.bytes) = none)
    (henc : process_pdf_to_enhanced_image pdf = .ok image)
    (hcall : env.attempt (buildDescriptor image) 0 = .ok resp ∨
      (∃ e1, env.attempt (buildDescriptor image) 0 = .error e1 ∧
        env.attempt (buildDescriptor image) 1 = .ok resp))
    (hfail : parseValidate resp.content = .error e) :
    (extract_data_from_pdf env cache pdf).result =
      .error (.validationError
        ("Erro ao processar dados extraídos: " ++ e)) ∧
    (extract_data_from_pdf env cache pdf).cache = cache := by
  rw [extract_miss env cache pdf hmiss]
  rcases hcall with h0 | ⟨e1, h0, h1⟩
  · rw [run_extraction_first_ok env cache _ pdf image resp henc h0,
        parseAndCache_err _ _ _ _ e hfail]
    exact ⟨rfl, rfl⟩
  · rw [run_extraction_retry_ok env cache _ pdf image e1 resp henc h0 h1,
        parseAndCache_err _ _ _ _ e hfail]
    exact ⟨rfl, rfl⟩

/-- Witness for C5: a payload carrying `numero_nota` as a number fails
validation, the request ends in ValidationError and the cache stays
empty. -/
theorem validation_failure_witness :
    (extract_data_from_pdf demoEnvBadPayload [] demoPdf).result =
      .error (.validationError
        ("Erro ao processar dados extraídos: Input should be a valid string")) ∧
    (extract_data_from_pdf demoEnvBadPayload [] demoPdf).cache = [] :=
  validation_failure_no_partial_cache demoEnvBadPayload [] demoPdf "imagem"
    ⟨some (.obj [("numero_nota", .num 5)]), 1000, 50⟩
    "Input should be a valid string" rfl rfl (Or.inl rfl) rfl

/-- C7: a document that fails to open or has zero pages makes the request
fail with a DocumentError, with zero external call attempts, before the
gateway section is ever entered, and with the cache unchanged. -/
theorem document_failure_aborts (env : Env) (cache : Cache) (pdf : PdfDoc)
    (hmiss : lookupA cache (env.get_pdf_hash pdf.bytes) = none)
    (hbad : pdf.opensOk = false ∨ pdf.pageCount = 0) :
    (∃ msg, (extract_data_from_pdf env cache pdf).result =
        .error (.documentError msg)) ∧
    (extract_data_from_pdf env cache pdf).callLog = [] ∧
    (extract_data_from_pdf env cache pdf).gatewayInvokes = 0 ∧
    (extract_data_from_pdf env cache pdf).cache = cache := by
  rw [extract_miss env cache pdf hmiss]
  have he : ∃ msg, process_pdf_to_enhanced_image pdf = .error msg := by
    unfold process_pdf_to_enhanced_image
    rcases hbad with hb | hb
    · exact ⟨"Falha ao processar imagem para OCR: falha ao abrir o documento",
        by simp [hb]⟩
    · by_cases ho : pdf.opensOk = false
      · exact ⟨"Falha ao processar imagem para OCR: falha ao abrir o documento",
          by simp [ho]⟩
      · exact ⟨"Falha ao processar imagem para OCR: O PDF não contém páginas.",
          by simp [ho, hb]⟩
  obtain ⟨msg, he⟩ := he
  rw [run_extraction_docfail env cache _ pdf msg he]
  exact ⟨⟨msg, rfl⟩, rfl, rfl, rfl⟩

/-- Witness for C7: the zero-page document aborts with a DocumentError
and no external activity. -/
theorem document_failure_witness :
    (∃ msg, (extract_data_from_pdf demoEnv [] demoPdfNoPages).result =
        .error (.documentError msg)) ∧
    (extract_data_from_pdf demoEnv [] demoPdfNoPages).callLog = [] ∧
    (extract_data_from_pdf demoEnv [] demoPdfNoPages).gatewayInvokes = 0 ∧
    (extract_data_from_pdf demoEnv [] demoPdfNoPages).cache = [] :=
  document_failure_aborts demoEnv [] demoPdfNoPages rfl (Or.inr rfl)

/-- C8: a submission whose first five bytes are not `b"%PDF-"` is
rejected by the endpoint with the client-fault status 400, no external
call is attempted and the cache is untouched. -/
theorem non_pdf_rejected (env : Env) (cache : Cache) (pdf : PdfDoc)
    (hbad : pdf.bytes.take 5 ≠ pdfMagic) :
    (extract_nfse env cache pdf).response =
      .error (400, "O arquivo enviado não é um PDF válido.") ∧
    (extract_nfse env cache pdf).callLog = [] ∧
    (extract_nfse env cache pdf).cache = cache := by
  have hp : pdfMagic.isPrefixOf pdf.bytes = false := by
    cases hq : pdfMagic.isPrefixOf pdf.bytes with
    | false => rfl
    | true =>
        exfalso
        have hpre : pdfMagic <+: pdf.bytes := List.isPrefixOf_iff_prefix.mp hq
        have ht := List.prefix_iff_eq_take.mp hpre
        exact hbad (by simpa [pdfMagic] using ht.symm)
  have hout : extract_nfse env cache pdf =
      ⟨.error (400, "O arquivo enviado não é um PDF válido."), cache, []⟩ := by
    unfold extract_nfse
    rw [hp]
    simp
  rw [hout]
  exact ⟨rfl, rfl, rfl⟩

/-- Witness for C8: a ZIP header is rejected with a 400 and no calls. -/
theorem non_pdf_rejected_witness :
    (extract_nfse demoEnv [] demoNotAPdf).response =
      .error (400, "O arquivo enviado não é um PDF válido.") ∧
    (extract_nfse demoEnv [] demoNotAPdf).callLog = [] ∧
    (extract_nfse demoEnv [] demoNotAPdf).cache = [] :=
  non_pdf_rejected demoEnv [] demoNotAPdf (by decide)
